import Mathlib

/-!
Verification of `scripts/endpoint-manager.py` (Moonshot MCP server endpoint
manager) against its specification.

The script is sequential glue code: it validates endpoint configuration
mappings, checks a backend registry for existing registrations, and calls the
backend's creation API.  We embed it shallowly:

* JSON values (what `json.load` / `json.loads` produce) become the inductive
  `JValue`; Python dicts become association lists with unique keys, looked up
  by first occurrence (`cfgGet`), with `dict.setdefault` appending at the end
  exactly as insertion order dictates.
* The external collaborators (the `moonshot` backend module, `json.loads`,
  the configuration directory on disk) are parameters gathered in `Env` and
  `DataDir`; functions of the script become total Lean functions over them.
* Exceptions become `Except Err`; the calls the script makes into the
  backend's API are recorded in a `List BackendCall` trace so that claims of
  the form "the creation API is not invoked" are statements about the trace.
-/

/-- JSON values, the results of Python's `json.load`/`json.loads`.  Objects
keep insertion order, as Python dicts do. -/
inductive JValue where
  | null : JValue
  | bool : Bool → JValue
  | int : Int → JValue
  | str : String → JValue
  | arr : List JValue → JValue
  | obj : List (String × JValue) → JValue

/-- A Python dict as produced by parsing a JSON object: an ordered
association list with (in all reachable states) unique keys. -/
abbrev Config := List (String × JValue)

mutual

/-- Python `==` on JSON-shaped values, as used in
`ep.get('name') == endpoint_name`.  Structural; on the string/None values the
script actually compares this coincides with Python (Python dict equality is
additionally insertion-order insensitive, which never matters here because
the compared values are endpoint names). -/
def jvBeq : JValue → JValue → Bool
  | .null, .null => true
  | .bool a, .bool b => a == b
  | .int a, .int b => a == b
  | .str a, .str b => a == b
  | .arr a, .arr b => jvBeqList a b
  | .obj a, .obj b => jvBeqObj a b
  | _, _ => false

def jvBeqList : List JValue → List JValue → Bool
  | [], [] => true
  | a :: as, b :: bs => jvBeq a b && jvBeqList as bs
  | _, _ => false

def jvBeqObj : List (String × JValue) → List (String × JValue) → Bool
  | [], [] => true
  | (k, v) :: as, (k2, v2) :: bs => k == k2 && jvBeq v v2 && jvBeqObj as bs
  | _, _ => false

end

mutual

/-- Python `repr` on JSON-shaped values (strings single-quoted). -/
def pyRepr : JValue → String
  | .null => "None"
  | .bool b => if b then "True" else "False"
  | .int n => toString n
  | .str s => "\x27" ++ s ++ "\x27"
  | .arr xs => "[" ++ pyReprArr xs ++ "]"
  | .obj fs => "\x7b" ++ pyReprObj fs ++ "\x7d"

def pyReprArr : List JValue → String
  | [] => ""
  | [v] => pyRepr v
  | v :: vs => pyRepr v ++ ", " ++ pyReprArr vs

def pyReprObj : List (String × JValue) → String
  | [] => ""
  | [(k, v)] => "\x27" ++ k ++ "\x27: " ++ pyRepr v
  | (k, v) :: fs => "\x27" ++ k ++ "\x27: " ++ pyRepr v ++ ", " ++ pyReprObj fs

end

/-- Python `str` as used by f-string interpolation: identity on strings,
`repr` on everything else. -/
def pyStr : JValue → String
  | .str s => s
  | v => pyRepr v

/-- Python list repr for a list of strings, as interpolated into the
"Missing required fields" and "Available endpoint configs" messages. -/
def pyStrListRepr (xs : List String) : String :=
  "[" ++ String.intercalate ", " (xs.map (fun s => "\x27" ++ s ++ "\x27")) ++ "]"

/-- `config[k]` / `config.get(k)`: the value at the first occurrence of key
`k`. -/
def cfgGet : Config → String → Option JValue
  | [], _ => none
  | (k2, v) :: rest, k => if k2 = k then some v else cfgGet rest k

/-- `config.setdefault(k, v)`: leaves the dict unchanged when `k` is present,
otherwise inserts `k ↦ v` at the end (Python insertion order). -/
def cfgSetdefault (c : Config) (k : String) (v : JValue) : Config :=
  if (cfgGet c k).isSome then c else c ++ [(k, v)]

/-- The `required_fields` list of `validate_endpoint_config`. -/
def required_fields : List String := ["name", "connector_type", "model"]

/-- The optional fields given defaults by `validate_endpoint_config`. -/
def optional_fields : List String :=
  ["uri", "token", "max_calls_per_second", "max_concurrency", "params"]

/-- `missing_fields = [field for field in required_fields if field not in config]`. -/
def missingRequired (c : Config) : List String :=
  required_fields.filter (fun f => (cfgGet c f).isNone)

/-- The five `config.setdefault(...)` calls of `validate_endpoint_config`,
in source order. -/
def applyDefaults (c : Config) : Config :=
  cfgSetdefault
    (cfgSetdefault
      (cfgSetdefault
        (cfgSetdefault
          (cfgSetdefault c "uri" (.str ""))
          "token" (.str ""))
        "max_calls_per_second" (.int 2))
      "max_concurrency" (.int 1))
    "params" (.obj [])

/-- `validate_endpoint_config`: raises `ValueError` listing the missing
required fields, otherwise fills the defaults in place (here: returns the
updated dict). -/
def validate_endpoint_config (c : Config) : Except (List String) Config :=
  if (missingRequired c).isEmpty then .ok (applyDefaults c)
  else .error (missingRequired c)

example : validate_endpoint_config [("name", .str "x")] =
    .error ["connector_type", "model"] := by rfl

example :
    validate_endpoint_config
      [("name", .str "x"), ("connector_type", .str "t"), ("model", .str "m")] =
    .ok [("name", .str "x"), ("connector_type", .str "t"), ("model", .str "m"),
         ("uri", .str ""), ("token", .str ""), ("max_calls_per_second", .int 2),
         ("max_concurrency", .int 1), ("params", .obj [])] := by rfl

/-- Python truthiness of a JSON value, as used by `if not config:` in
`register_endpoint_by_name` (None, `False`, `0`, `""`, `[]` and `{}` are
falsy). -/
def pyTruthy : JValue → Bool
  | .null => false
  | .bool b => b
  | .int n => n != 0
  | .str s => !s.isEmpty
  | .arr xs => !xs.isEmpty
  | .obj fs => !fs.isEmpty

/-- The inner cause wrapped by `register_endpoint`'s generic handler into
`RuntimeError("Failed to register endpoint '...': ...")`. -/
inductive RegInner where
  | missingRequiredFields : List String → RegInner
  | createFailed : String → RegInner

/-- The exceptions the script can raise, one constructor per `raise` site
(plus `pyError` for Python-level errors such as calling `.get` on a
non-mapping, which the top-level handler also catches). -/
inductive Err where
  | importFailRegister : String → Err
  | importFailCheck : String → Err
  | registerFail : JValue → RegInner → Err
  | checkFail : String → Err
  | listRegisteredFail : String → Err
  | loadConfigFail : String → String → Err
  | noConfigFound : String → List String → Err
  | moonshotMissing : Err
  | usageErr : String → Err
  | jsonParseFail : String → Err
  | unknownCommand : String → Err
  | pyError : String → Err

/-- The message of a `RegInner`, as interpolated by `register_endpoint`. -/
def renderInner : RegInner → String
  | .missingRequiredFields fs =>
      "Missing required fields in endpoint config: " ++ pyStrListRepr fs
  | .createFailed m => m

/-- The message attached to each exception (the `{e}` the top level prints).
`moonshotMissing`'s message also carries the resolved absolute path in the
script, elided here. -/
def renderErr : Err → String
  | .importFailRegister m =>
      "Failed to import Moonshot modules. Is Moonshot backend installed? Error: " ++ m
  | .importFailCheck m => "Failed to import Moonshot modules: " ++ m
  | .registerFail nm inner =>
      "Failed to register endpoint \x27" ++ pyStr nm ++ "\x27: " ++ renderInner inner
  | .checkFail m => "Failed to check existing endpoints: " ++ m
  | .listRegisteredFail m => "Failed to list registered endpoints: " ++ m
  | .loadConfigFail p m => "Failed to load config from " ++ p ++ ": " ++ m
  | .noConfigFound n avail =>
      "No configuration found for endpoint \x27" ++ n ++
      "\x27. Available endpoint configs: " ++ pyStrListRepr avail
  | .moonshotMissing => "Moonshot directory not found"
  | .usageErr m => m
  | .jsonParseFail m => m
  | .unknownCommand c => "Unknown command: " ++ c
  | .pyError m => m

/-- The `connectors-endpoints` data directory: whether it exists, and the
files in it.  Each file is its name paired with what `json.load` yields on
it: a parsed value, or a read/parse error message. -/
structure DataDir where
  present : Bool
  files : List (String × Except String JValue)

/-- Association-list lookup of a file by name. -/
def lookupFile : List (String × Except String JValue) → String → Option (Except String JValue)
  | [], _ => none
  | (n, c) :: rest, fn => if n = fn then some c else lookupFile rest fn

/-- `(data_dir / filename).exists()` + reading it: a file of a missing
directory never exists. -/
def dirLookup (d : DataDir) (fn : String) : Option (Except String JValue) :=
  if d.present then lookupFile d.files fn else none

/-- The arguments the script passes to the backend's `api_create_endpoint`. -/
structure CreateArgs where
  name : JValue
  connector_type : JValue
  uri : JValue
  token : JValue
  max_calls_per_second : JValue
  max_concurrency : JValue
  model : JValue
  params : JValue

/-- One call made into the backend's API surface. -/
inductive BackendCall where
  | getAllCall : BackendCall
  | createCall : CreateArgs → BackendCall

/-- Whether a backend call is an invocation of the creation API. -/
def isCreateCall : BackendCall → Bool
  | .getAllCall => false
  | .createCall _ => true

/-- The external world the script runs against: whether the sibling
`revised-moonshot` directory exists, whether importing the backend module
succeeds, what the backend's two API functions do, what `json.loads` does,
and the configuration data directory. -/
structure Env where
  moonshotDirOk : Bool
  importOk : Bool
  importErr : String
  getAll : Except String (List Config)
  create : CreateArgs → Except String String
  jsonLoads : String → Except String JValue
  dataDir : DataDir

/-- `ep.get(k) == nm` (Python `dict.get` yields `None` when absent). -/
def pyGetEq (ep : Config) (k : String) (nm : JValue) : Bool :=
  jvBeq ((cfgGet ep k).getD .null) nm

/-- The predicate of `check_endpoint_exists`'s `any(...)`:
`ep.get('name') == endpoint_name or ep.get('id') == endpoint_name`. -/
def matchesName (nm : JValue) (ep : Config) : Bool :=
  pyGetEq ep "name" nm || pyGetEq ep "id" nm

/-- `check_endpoint_exists`: imports the backend, fetches all endpoints and
reports whether any entry's `name` or `id` equals the requested name;
wraps import failures and listing failures.  The second component records
the backend calls made. -/
def check_endpoint_exists (env : Env) (nm : JValue) :
    Except Err Bool × List BackendCall :=
  if env.importOk then
    match env.getAll with
    | .ok eps => (.ok (eps.any (matchesName nm)), [.getAllCall])
    | .error m => (.error (.checkFail m), [.getAllCall])
  else (.error (.importFailCheck env.importErr), [])

/-- `config.get('name', 'unknown')`. -/
def nameOrUnknown (c : Config) : JValue :=
  (cfgGet c "name").getD (.str "unknown")

/-- The keyword arguments `register_endpoint` passes to
`api_create_endpoint`; only evaluated on validated configs, where all eight
keys are present (`getD .null` is then never the default). -/
def mkCreateArgs (c : Config) : CreateArgs where
  name := (cfgGet c "name").getD .null
  connector_type := (cfgGet c "connector_type").getD .null
  uri := (cfgGet c "uri").getD .null
  token := (cfgGet c "token").getD .null
  max_calls_per_second := (cfgGet c "max_calls_per_second").getD .null
  max_concurrency := (cfgGet c "max_concurrency").getD .null
  model := (cfgGet c "model").getD .null
  params := (cfgGet c "params").getD .null

/-- `register_endpoint`: imports the backend, validates the config, calls
`api_create_endpoint` and returns its id; an `ImportError` is wrapped
without the endpoint name, every other failure is wrapped as
`Failed to register endpoint '<name>': ...`.  A non-mapping argument makes
`'name' not in config` / `config.get` raise a Python-level error. -/
def register_endpoint (env : Env) (v : JValue) :
    Except Err String × List BackendCall :=
  if env.importOk then
    match v with
    | .obj cfg =>
      match validate_endpoint_config cfg with
      | .error missing =>
          (.error (.registerFail (nameOrUnknown cfg) (.missingRequiredFields missing)), [])
      | .ok cfg2 =>
        match env.create (mkCreateArgs cfg2) with
        | .ok endpointId => (.ok endpointId, [.createCall (mkCreateArgs cfg2)])
        | .error m =>
            (.error (.registerFail (nameOrUnknown cfg) (.createFailed m)),
             [.createCall (mkCreateArgs cfg2)])
    | _ => (.error (.pyError "config is not a mapping"), [])
  else (.error (.importFailRegister env.importErr), [])

/-- The filename candidates `possible_files` of
`get_endpoint_config_from_file`, in search order. -/
def possible_files (n : String) : List String :=
  [n ++ ".json", n ++ "-connector.json"]

/-- The search loop of `get_endpoint_config_from_file` over the candidate
filenames. -/
def tryLoadFiles (d : DataDir) : List String → Except Err (Option JValue)
  | [] => .ok none
  | fn :: rest =>
    match dirLookup d fn with
    | some (.ok v) => .ok (some v)
    | some (.error m) => .error (.loadConfigFail fn m)
    | none => tryLoadFiles d rest

/-- `get_endpoint_config_from_file`: first existing candidate file wins; a
matching but unreadable/malformed file raises; no match returns `None`. -/
def get_endpoint_config_from_file (d : DataDir) (n : String) :
    Except Err (Option JValue) :=
  tryLoadFiles d (possible_files n)

/-- `f"Endpoint '{endpoint_name}' already registered"`. -/
def alreadyRegisteredMsg (nm : JValue) : String :=
  "Endpoint \x27" ++ pyStr nm ++ "\x27 already registered"

/-- Index of the last `'.'` in a list of characters (Python `str.rfind`). -/
def rfindDot : List Char → Option Nat
  | [] => none
  | c :: cs =>
    match rfindDot cs with
    | some i => some (i + 1)
    | none => if c == '.' then some 0 else none

/-- `pathlib.PurePath.stem`: the name without its suffix, where the suffix
is `name[i:]` for `i` the last dot index when `0 < i < len(name) - 1`, and
empty otherwise (so `.json` is its own stem). -/
def pathStem (s : String) : String :=
  match rfindDot s.data with
  | none => s
  | some i => if 0 < i && i + 1 < s.data.length then ⟨s.data.take i⟩ else s

/-- The characters of `".json"`. -/
def jsonSuffix : List Char := ['.', 'j', 's', 'o', 'n']

/-- Whether `data_dir.glob("*.json")` matches a filename: `fnmatch`-style,
`*` matches any (possibly empty) run, so this is exactly "ends with
`.json`" (pathlib's glob does not special-case leading dots). -/
def globMatchesJson (s : String) : Bool :=
  jsonSuffix.isSuffixOf s.data

/-- `list_available_endpoint_configs`: empty when the directory is absent,
otherwise the sorted `Path.stem`s of the `*.json` files (Python `sorted` is
ascending lexicographic). -/
def list_available_endpoint_configs (d : DataDir) : List String :=
  if d.present then
    (((d.files.map Prod.fst).filter globMatchesJson).map pathStem).mergeSort
      (fun a b => a ≤ b)
  else []

/-- `register_endpoint_by_name`: skip when already registered, load the
config by name (a missing or falsy config reports the available configs),
then register. -/
def register_endpoint_by_name (env : Env) (n : String) :
    Except Err String × List BackendCall :=
  match check_endpoint_exists env (.str n) with
  | (.error e, t) => (.error e, t)
  | (.ok true, t) => (.ok (alreadyRegisteredMsg (.str n)), t)
  | (.ok false, t) =>
    match get_endpoint_config_from_file env.dataDir n with
    | .error e => (.error e, t)
    | .ok copt =>
      match copt with
      | none =>
        (.error (.noConfigFound n (list_available_endpoint_configs env.dataDir)), t)
      | some v =>
        if pyTruthy v then
          match register_endpoint env v with
          | (.ok endpointId, t2) =>
            (.ok ("Successfully registered endpoint \x27" ++ n ++
                  "\x27 with ID: " ++ endpointId), t ++ t2)
          | (.error e, t2) => (.error e, t ++ t2)
        else
          (.error (.noConfigFound n (list_available_endpoint_configs env.dataDir)), t)

/-- `register_custom_endpoint`: skip when `config.get('name', 'unknown')` is
already registered, then register; a non-mapping argument raises at
`config.get`. -/
def register_custom_endpoint (env : Env) (v : JValue) :
    Except Err String × List BackendCall :=
  match v with
  | .obj cfg =>
    match check_endpoint_exists env (nameOrUnknown cfg) with
    | (.error e, t) => (.error e, t)
    | (.ok true, t) => (.ok (alreadyRegisteredMsg (nameOrUnknown cfg)), t)
    | (.ok false, t) =>
      match register_endpoint env (.obj cfg) with
      | (.ok endpointId, t2) =>
        (.ok ("Successfully registered custom endpoint \x27" ++
              pyStr (nameOrUnknown cfg) ++ "\x27 with ID: " ++ endpointId), t ++ t2)
      | (.error e, t2) => (.error e, t ++ t2)
  | _ => (.error (.pyError "config is not a mapping"), [])

/-- `list_registered_endpoints`: the `name`/`model`/`connector_type`
summaries of all registered endpoints; its single handler also catches
the failure of the backend module load. -/
def list_registered_endpoints (env : Env) : Except Err (List Config) :=
  if env.importOk then
    match env.getAll with
    | .ok eps =>
      .ok (eps.map (fun ep =>
        [("name", (cfgGet ep "name").getD .null),
         ("model", (cfgGet ep "model").getD .null),
         ("connector_type", (cfgGet ep "connector_type").getD .null)]))
    | .error m => .error (.listRegisteredFail m)
  else .error (.listRegisteredFail env.importErr)

/-- The six usage lines printed (to stdout) when fewer than two argv
entries are given. -/
def usageLines : List String :=
  ["Usage:",
   "  python endpoint-manager.py register <endpoint_name>",
   "  python endpoint-manager.py register-json <json_config>",
   "  python endpoint-manager.py list-available",
   "  python endpoint-manager.py list-registered",
   "  python endpoint-manager.py check <endpoint_name>"]

/-- The body of `main`'s `try:` block, given `sys.argv[1]` and
`sys.argv[2:]`: the stdout lines of the chosen command, or the exception
the top-level handler catches. -/
def runCommand (env : Env) (cmd : String) (rest : List String) :
    Except Err (List String) :=
  if !env.moonshotDirOk then .error .moonshotMissing
  else if cmd = "register" then
    match rest with
    | [n] =>
      match register_endpoint_by_name env n with
      | (.ok msg, _) => .ok [msg]
      | (.error e, _) => .error e
    | _ => .error (.usageErr "Usage: register <endpoint_name>")
  else if cmd = "register-json" then
    match rest with
    | [s] =>
      match env.jsonLoads s with
      | .error m => .error (.jsonParseFail m)
      | .ok v =>
        match register_custom_endpoint env v with
        | (.ok msg, _) => .ok [msg]
        | (.error e, _) => .error e
    | _ => .error (.usageErr "Usage: register-json <json_config>")
  else if cmd = "list-available" then
    .ok ("Available endpoint configurations:" ::
      (list_available_endpoint_configs env.dataDir).map (fun c => "  - " ++ c))
  else if cmd = "list-registered" then
    match list_registered_endpoints env with
    | .ok eps =>
      .ok ("Registered endpoints:" :: eps.map (fun ep =>
        "  - " ++ pyStr ((cfgGet ep "name").getD .null) ++ " (" ++
        pyStr ((cfgGet ep "connector_type").getD .null) ++ ", " ++
        pyStr ((cfgGet ep "model").getD .null) ++ ")"))
    | .error e => .error e
  else if cmd = "check" then
    match rest with
    | [n] =>
      match check_endpoint_exists env (.str n) with
      | (.ok b, _) =>
        .ok ["Endpoint \x27" ++ n ++ "\x27 " ++
             (if b then "exists" else "does not exist") ++ " in registry"]
      | (.error e, _) => .error e
    | _ => .error (.usageErr "Usage: check <endpoint_name>")
  else .error (.unknownCommand cmd)

/-- The observable outcome of one process invocation. -/
structure MainResult where
  exitCode : Nat
  stdoutLines : List String
  stderrLines : List String

/-- `main`, over the full `sys.argv` (script name included): fewer than two
entries prints usage to stdout and exits 1; otherwise the command runs and
either its output is printed and the process exits 0, or the caught
exception is printed to stderr as `ERROR: ...` and the process exits 1. -/
def mainRun (env : Env) (argv : List String) : MainResult :=
  if argv.length < 2 then ⟨1, usageLines, []⟩
  else
    match runCommand env (argv.getD 1 "") (argv.drop 2) with
    | .ok outs => ⟨0, outs, []⟩
    | .error e => ⟨1, [], ["ERROR: " ++ renderErr e]⟩

/-- A benign concrete environment for witnesses. -/
def env0 : Env where
  moonshotDirOk := true
  importOk := true
  importErr := ""
  getAll := .ok []
  create := fun _ => .ok "ep-id"
  jsonLoads := fun _ => .error "Expecting value: line 1 column 1 (char 0)"
  dataDir := ⟨true, []⟩

example : (mainRun env0 ["endpoint-manager.py"]).exitCode = 1 := by rfl

theorem cfgGet_append_some {a : Config} {k : String} {v : JValue} (b : Config)
    (h : cfgGet a k = some v) : cfgGet (a ++ b) k = some v := by
  induction a with
  | nil => simp [cfgGet] at h
  | cons p rest ih =>
    obtain ⟨k2, w⟩ := p
    simp only [cfgGet, List.cons_append] at h ⊢
    split at h
    · simp_all
    · simp only [*, if_false]
      exact ih h

theorem cfgGet_append_none {a : Config} {k : String} (b : Config)
    (h : cfgGet a k = none) : cfgGet (a ++ b) k = cfgGet b k := by
  induction a with
  | nil => simp [cfgGet]
  | cons p rest ih =>
    obtain ⟨k2, w⟩ := p
    simp only [cfgGet, List.cons_append] at h ⊢
    split at h
    · simp at h
    · simp only [*, if_false]
      exact ih h

/-- How `setdefault` affects a later lookup: the touched key becomes its old
value if present, else the default; every other key is untouched. -/
theorem cfgGet_setdefault (c : Config) (k : String) (v : JValue) (k2 : String) :
    cfgGet (cfgSetdefault c k v) k2 =
      if k2 = k then some ((cfgGet c k).getD v) else cfgGet c k2 := by
  unfold cfgSetdefault
  cases h : cfgGet c k with
  | some w =>
    simp only [h, Option.isSome_some, if_true, Option.getD_some]
    split
    · simp [*]
    · rfl
  | none =>
    simp only [h, Option.isSome_none, Bool.false_eq_true, if_false, Option.getD_none]
    split
    · subst k2
      rw [cfgGet_append_none _ h]
      simp [cfgGet]
    · rename_i hne
      have hne2 : ¬ k = k2 := fun hh => hne hh.symm
      cases h2 : cfgGet c k2 with
      | some w => exact cfgGet_append_some _ h2
      | none =>
        rw [cfgGet_append_none _ h2]
        simp [cfgGet, hne2, h2]

/-- The combined effect of the five `setdefault` calls on a lookup. -/
theorem cfgGet_applyDefaults (c : Config) (k : String) :
    cfgGet (applyDefaults c) k =
      if k = "uri" then some ((cfgGet c "uri").getD (.str ""))
      else if k = "token" then some ((cfgGet c "token").getD (.str ""))
      else if k = "max_calls_per_second" then
        some ((cfgGet c "max_calls_per_second").getD (.int 2))
      else if k = "max_concurrency" then
        some ((cfgGet c "max_concurrency").getD (.int 1))
      else if k = "params" then some ((cfgGet c "params").getD (.obj []))
      else cfgGet c k := by
  by_cases h1 : k = "uri"
  · subst h1; simp [applyDefaults, cfgGet_setdefault]
  by_cases h2 : k = "token"
  · subst h2; simp [applyDefaults, cfgGet_setdefault]
  by_cases h3 : k = "max_calls_per_second"
  · subst h3; simp [applyDefaults, cfgGet_setdefault]
  by_cases h4 : k = "max_concurrency"
  · subst h4; simp [applyDefaults, cfgGet_setdefault]
  by_cases h5 : k = "params"
  · subst h5; simp [applyDefaults, cfgGet_setdefault]
  simp [applyDefaults, cfgGet_setdefault, h1, h2, h3, h4, h5]

/-- Validation succeeds exactly when the three required lookups succeed. -/
theorem validate_ok_iff (c : Config) :
    (∃ c2, validate_endpoint_config c = .ok c2) ↔
      ∀ k ∈ required_fields, (cfgGet c k).isSome := by
  unfold validate_endpoint_config
  constructor
  · rintro ⟨c2, h⟩ k hk
    split at h
    · rename_i hemp
      rw [List.isEmpty_iff, missingRequired, List.filter_eq_nil_iff] at hemp
      have := hemp k hk
      simpa [Option.isNone_iff_eq_none, Option.isSome_iff_ne_none] using this
    · exact absurd h (by simp)
  · intro hall
    rw [if_pos]
    · exact ⟨applyDefaults c, rfl⟩
    · rw [List.isEmpty_iff, missingRequired, List.filter_eq_nil_iff]
      intro k hk
      have := hall k hk
      simpa [Option.isNone_iff_eq_none, Option.isSome_iff_ne_none] using this

/-- On success, validation returns the default-filled input. -/
theorem validate_ok_eq {c c2 : Config}
    (h : validate_endpoint_config c = .ok c2) : c2 = applyDefaults c := by
  unfold validate_endpoint_config at h
  split at h
  · exact (Except.ok.injEq _ _ ▸ h).symm
  · exact absurd h (by simp)

/-- A successful lookup means the key occurs in the dict. -/
theorem cfgGet_isSome_mem_keys {c : Config} {k : String}
    (h : (cfgGet c k).isSome) : k ∈ c.map Prod.fst := by
  induction c with
  | nil => simp [cfgGet] at h
  | cons p rest ih =>
    obtain ⟨k2, w⟩ := p
    simp only [cfgGet] at h
    by_cases hk : k2 = k
    · simp [hk]
    · simp only [hk, if_false] at h
      simp [ih h]

/-- Claim C2: a config carrying exactly the three required keys validates
successfully, keeps the three required values, and afterwards carries
exactly the eight keys, the five optional ones bound to the documented
defaults. -/
theorem c2_defaults_filled_exactly (c : Config) (vn vc vm : JValue)
    (hn : cfgGet c "name" = some vn)
    (hc : cfgGet c "connector_type" = some vc)
    (hm : cfgGet c "model" = some vm)
    (hkeys : (c.map Prod.fst).Perm required_fields) :
    ∃ c2, validate_endpoint_config c = .ok c2 ∧
      cfgGet c2 "name" = some vn ∧
      cfgGet c2 "connector_type" = some vc ∧
      cfgGet c2 "model" = some vm ∧
      cfgGet c2 "uri" = some (.str "") ∧
      cfgGet c2 "token" = some (.str "") ∧
      cfgGet c2 "max_calls_per_second" = some (.int 2) ∧
      cfgGet c2 "max_concurrency" = some (.int 1) ∧
      cfgGet c2 "params" = some (.obj []) ∧
      (∀ k, (cfgGet c2 k).isSome ↔ k ∈ required_fields ++ optional_fields) := by
  have honly : ∀ k, (cfgGet c k).isSome → k ∈ required_fields := by
    intro k hk
    exact hkeys.mem_iff.mp (cfgGet_isSome_mem_keys hk)
  have habs : ∀ k, k ∉ required_fields → cfgGet c k = none := by
    intro k hk
    cases h : cfgGet c k with
    | none => rfl
    | some w => exact absurd (honly k (by simp [h])) hk
  have hok : validate_endpoint_config c = .ok (applyDefaults c) := by
    unfold validate_endpoint_config
    rw [if_pos]
    simp [missingRequired, required_fields, List.filter, hn, hc, hm]
  have huri : cfgGet c "uri" = none := habs _ (by decide)
  have htok : cfgGet c "token" = none := habs _ (by decide)
  have hmcs : cfgGet c "max_calls_per_second" = none := habs _ (by decide)
  have hmc : cfgGet c "max_concurrency" = none := habs _ (by decide)
  have hpar : cfgGet c "params" = none := habs _ (by decide)
  refine ⟨applyDefaults c, hok, ?_, ?_, ?_, ?_, ?_, ?_, ?_, ?_, ?_⟩
  · rw [cfgGet_applyDefaults]; simp [hn]
  · rw [cfgGet_applyDefaults]; simp [hc]
  · rw [cfgGet_applyDefaults]; simp [hm]
  · rw [cfgGet_applyDefaults]; simp [huri]
  · rw [cfgGet_applyDefaults]; simp [htok]
  · rw [cfgGet_applyDefaults]; simp [hmcs]
  · rw [cfgGet_applyDefaults]; simp [hmc]
  · rw [cfgGet_applyDefaults]; simp [hpar]
  · intro k
    rw [cfgGet_applyDefaults]
    by_cases h1 : k = "uri"
    · subst h1; simp [required_fields, optional_fields]
    by_cases h2 : k = "token"
    · subst h2; simp [required_fields, optional_fields]
    by_cases h3 : k = "max_calls_per_second"
    · subst h3; simp [required_fields, optional_fields]
    by_cases h4 : k = "max_concurrency"
    · subst h4; simp [required_fields, optional_fields]
    by_cases h5 : k = "params"
    · subst h5; simp [required_fields, optional_fields]
    simp only [h1, h2, h3, h4, h5, if_false]
    constructor
    · intro hk
      exact List.mem_append.mpr (Or.inl (honly k hk))
    · intro hk
      rcases List.mem_append.mp hk with hreq | hopt
      · simp only [required_fields, List.mem_cons, List.not_mem_nil,
          or_false] at hreq
        rcases hreq with rfl | rfl | rfl
        · simp [hn]
        · simp [hc]
        · simp [hm]
      · simp only [optional_fields, List.mem_cons, List.not_mem_nil,
          or_false] at hopt
        rcases hopt with rfl | rfl | rfl | rfl | rfl
        · exact absurd rfl h1
        · exact absurd rfl h2
        · exact absurd rfl h3
        · exact absurd rfl h4
        · exact absurd rfl h5

/-- Witness for C2: the three-field config, with the `uri` default. -/
theorem c2_defaults_filled_exactly_witness :
    ∃ c2,
      validate_endpoint_config
        [("name", JValue.str "n"), ("connector_type", JValue.str "t"),
         ("model", JValue.str "m")] = .ok c2 ∧
      cfgGet c2 "uri" = some (.str "") ∧
      cfgGet c2 "max_calls_per_second" = some (.int 2) := by
  obtain ⟨c2, h1, _, _, _, h5, _, h7, _⟩ :=
    c2_defaults_filled_exactly
      [("name", JValue.str "n"), ("connector_type", JValue.str "t"),
       ("model", JValue.str "m")]
      (.str "n") (.str "t") (.str "m") rfl rfl rfl (by decide)
  exact ⟨c2, h1, h5, h7⟩

/-- Claim C3: validation fails exactly when a required key is absent, the
error lists exactly the absent required keys, and success fills the five
optional keys. -/
theorem c3_validation_error_lists_missing (c : Config) :
    ((∃ l, validate_endpoint_config c = .error l) ↔
      ∃ k ∈ required_fields, cfgGet c k = none) ∧
    (∀ l, validate_endpoint_config c = .error l →
      ∀ k, k ∈ l ↔ (k ∈ required_fields ∧ cfgGet c k = none)) ∧
    (∀ c2, validate_endpoint_config c = .ok c2 →
      (∀ k ∈ required_fields, (cfgGet c k).isSome) ∧
      (∀ k ∈ optional_fields, (cfgGet c2 k).isSome)) := by
  refine ⟨?_, ?_, ?_⟩
  · have hdich : (∃ l, validate_endpoint_config c = .error l) ↔
        ¬ ∃ c2, validate_endpoint_config c = .ok c2 := by
      cases validate_endpoint_config c <;> simp
    rw [hdich, validate_ok_iff]
    simp [Option.isSome_iff_ne_none]
  · intro l hl k
    unfold validate_endpoint_config at hl
    split at hl
    · exact absurd hl (by simp)
    · have : l = missingRequired c := by
        have := (Except.error.injEq _ _ ▸ hl)
        exact this.symm
      subst this
      simp [missingRequired, List.mem_filter, Option.isNone_iff_eq_none]
  · intro c2 h
    have hall := (validate_ok_iff c).mp ⟨c2, h⟩
    refine ⟨hall, ?_⟩
    have hc2 := validate_ok_eq h
    subst hc2
    intro k hk
    rw [cfgGet_applyDefaults]
    simp only [optional_fields, List.mem_cons, List.not_mem_nil,
      or_false] at hk
    rcases hk with rfl | rfl | rfl | rfl | rfl
    · simp
    · simp
    · simp
    · simp
    · simp

/-- Witness for C3: a config missing `model` fails and `model` is among the
fields the failure lists. -/
theorem c3_validation_error_lists_missing_witness :
    "model" ∈ required_fields ∧
      cfgGet [("name", JValue.str "n"), ("connector_type", JValue.str "t")]
        "model" = none :=
  ((c3_validation_error_lists_missing
      [("name", JValue.str "n"), ("connector_type", JValue.str "t")]).2.1
    ["model"] rfl "model").mp (by simp)

/-- Claim C10: validation never overwrites a caller-supplied value (even a
falsy one), and only ever adds keys drawn from the optional fields. -/
theorem c10_validation_preserves_supplied_values (c c2 : Config)
    (h : validate_endpoint_config c = .ok c2) :
    (∀ k v, cfgGet c k = some v → cfgGet c2 k = some v) ∧
    (∀ k, cfgGet c k = none → (cfgGet c2 k).isSome → k ∈ optional_fields) := by
  have hc2 := validate_ok_eq h
  subst hc2
  constructor
  · intro k v hkv
    rw [cfgGet_applyDefaults]
    split_ifs with h1 h2 h3 h4 h5
    · subst h1; simp [hkv]
    · subst h2; simp [hkv]
    · subst h3; simp [hkv]
    · subst h4; simp [hkv]
    · subst h5; simp [hkv]
    · exact hkv
  · intro k hk hsome
    rw [cfgGet_applyDefaults] at hsome
    split_ifs at hsome with h1 h2 h3 h4 h5
    · subst h1; simp [optional_fields]
    · subst h2; simp [optional_fields]
    · subst h3; simp [optional_fields]
    · subst h4; simp [optional_fields]
    · subst h5; simp [optional_fields]
    · rw [hk] at hsome
      simp at hsome

/-- Witness for C10: a caller-supplied falsy `uri = 0` survives validation
unchanged. -/
theorem c10_validation_preserves_supplied_values_witness :
    cfgGet
      (applyDefaults
        [("name", JValue.str "n"), ("uri", JValue.int 0),
         ("connector_type", JValue.str "t"), ("model", JValue.str "m")])
      "uri" = some (.int 0) :=
  (c10_validation_preserves_supplied_values
      [("name", JValue.str "n"), ("uri", JValue.int 0),
       ("connector_type", JValue.str "t"), ("model", JValue.str "m")]
      _ rfl).1 "uri" (.int 0) rfl

/-- Claim C4: with fewer than two argv entries the script prints the usage
text and exits with code 1. -/
theorem c4_short_argv_prints_usage_exits_1 (env : Env) (argv : List String)
    (h : argv.length < 2) : mainRun env argv = ⟨1, usageLines, []⟩ := by
  simp [mainRun, h]

/-- Witness for C4: invoking with the bare script name. -/
theorem c4_short_argv_prints_usage_exits_1_witness :
    mainRun env0 ["endpoint-manager.py"] = ⟨1, usageLines, []⟩ :=
  c4_short_argv_prints_usage_exits_1 env0 ["endpoint-manager.py"] (by decide)

/-- Counterexample to claim C5 as stated: the zero/one-argument usage path
is a failing invocation (exit code 1) whose message goes to stdout, not to
stderr, and carries no `ERROR:` prefix. -/
theorem c5_counterexample_usage_error_not_on_stderr :
    (mainRun env0 ["endpoint-manager.py"]).exitCode = 1 ∧
    (mainRun env0 ["endpoint-manager.py"]).stderrLines = [] ∧
    (mainRun env0 ["endpoint-manager.py"]).stdoutLines = usageLines :=
  ⟨rfl, rfl, rfl⟩

/-- Claim C5 (amended): every invocation either succeeds with exit code 0
and empty stderr, or fails with exit code 1; a failing invocation with at
least two argv entries reports a single `ERROR: `-prefixed line on stderr,
while the zero/one-argument usage path prints the usage text on stdout and
nothing on stderr.  In particular no failure path exits 0. -/
theorem c5_amended_failures_exit_1_with_error_prefix (env : Env)
    (argv : List String) :
    ((mainRun env argv).exitCode = 0 ∧ (mainRun env argv).stderrLines = []) ∨
    ((mainRun env argv).exitCode = 1 ∧ 2 ≤ argv.length ∧
      ∃ m, (mainRun env argv).stderrLines = ["ERROR: " ++ m]) ∨
    ((mainRun env argv).exitCode = 1 ∧ argv.length < 2 ∧
      (mainRun env argv).stdoutLines = usageLines ∧
      (mainRun env argv).stderrLines = []) := by
  unfold mainRun
  by_cases h : argv.length < 2
  · right; right
    simp [h]
  · rw [if_neg h]
    cases hr : runCommand env (argv.getD 1 "") (argv.drop 2) with
    | ok outs => exact Or.inl ⟨rfl, rfl⟩
    | error e => exact Or.inr (Or.inl ⟨rfl, Nat.le_of_not_lt h, renderErr e, rfl⟩)

/-- Claim C9: `register-json '{"name":"x"}'` (with no endpoint named or
id-ed `x` registered) fails with exit code 1, reporting `connector_type`
and `model` as the missing fields. -/
theorem c9_register_json_name_only_reports_missing (env : Env) (s : String)
    (eps : List Config)
    (hdir : env.moonshotDirOk = true)
    (himp : env.importOk = true)
    (hparse : env.jsonLoads s = .ok (.obj [("name", .str "x")]))
    (hget : env.getAll = .ok eps)
    (hno : ∀ ep ∈ eps, matchesName (.str "x") ep = false) :
    mainRun env ["endpoint-manager.py", "register-json", s] =
      ⟨1, [],
       ["ERROR: Failed to register endpoint \x27x\x27: Missing required fields in endpoint config: [\x27connector_type\x27, \x27model\x27]"]⟩ := by
  have hany : eps.any (matchesName (.str "x")) = false := by
    rw [List.any_eq_false]
    intro ep hep
    simp [hno ep hep]
  have hcheck : check_endpoint_exists env (.str "x") = (.ok false, [.getAllCall]) := by
    simp [check_endpoint_exists, himp, hget, hany]
  have hreg : register_endpoint env (.obj [("name", JValue.str "x")]) =
      (.error (.registerFail (.str "x")
        (.missingRequiredFields ["connector_type", "model"])), []) := by
    simp [register_endpoint, himp, nameOrUnknown, cfgGet,
      show validate_endpoint_config [("name", JValue.str "x")] =
        .error ["connector_type", "model"] from rfl]
  have hcustom : register_custom_endpoint env (.obj [("name", JValue.str "x")]) =
      (.error (.registerFail (.str "x")
        (.missingRequiredFields ["connector_type", "model"])), [.getAllCall]) := by
    have hnm : nameOrUnknown [("name", JValue.str "x")] = .str "x" := rfl
    simp [register_custom_endpoint, hnm, hcheck, hreg]
  simp [mainRun, runCommand, hdir, hparse, hcustom, renderErr, renderInner,
    pyStr, pyStrListRepr]
  rfl

/-- A concrete environment whose `json.loads` yields the C9 config. -/
def env9 : Env :=
  { env0 with jsonLoads := fun _ => .ok (.obj [("name", .str "x")]) }

/-- Witness for C9: the concrete invocation against an empty registry. -/
theorem c9_register_json_name_only_reports_missing_witness :
    mainRun env9 ["endpoint-manager.py", "register-json", "\x7b\"name\": \"x\"\x7d"] =
      ⟨1, [],
       ["ERROR: Failed to register endpoint \x27x\x27: Missing required fields in endpoint config: [\x27connector_type\x27, \x27model\x27]"]⟩ :=
  c9_register_json_name_only_reports_missing env9 "\x7b\"name\": \"x\"\x7d" []
    rfl rfl rfl rfl (by simp)

/-- The existence check only ever calls the listing API, never creation. -/
theorem check_trace_no_create (env : Env) (nm : JValue) :
    ∀ call ∈ (check_endpoint_exists env nm).2, isCreateCall call = false := by
  by_cases h : env.importOk
  · simp only [check_endpoint_exists, h, if_true]
    cases env.getAll <;> simp [isCreateCall]
  · simp [check_endpoint_exists, h]

/-- Claim C1: when the existence check reports the name as present, both
`register` and `register-json` return the "already registered" message and
their backend-call traces contain no creation call; conversely the creation
API is only ever invoked after the existence check has returned false. -/
theorem c1_creation_only_after_check_false (env : Env) (n : String) :
    ((check_endpoint_exists env (.str n)).1 = .ok true →
      register_endpoint_by_name env n =
        (.ok (alreadyRegisteredMsg (.str n)), (check_endpoint_exists env (.str n)).2) ∧
      (∀ call ∈ (register_endpoint_by_name env n).2, isCreateCall call = false) ∧
      (∀ cfg, nameOrUnknown cfg = .str n →
        register_custom_endpoint env (.obj cfg) =
          (.ok (alreadyRegisteredMsg (.str n)),
           (check_endpoint_exists env (.str n)).2) ∧
        (∀ call ∈ (register_custom_endpoint env (.obj cfg)).2,
          isCreateCall call = false))) ∧
    ((∃ args, BackendCall.createCall args ∈ (register_endpoint_by_name env n).2) →
      (check_endpoint_exists env (.str n)).1 = .ok false) ∧
    (∀ cfg,
      (∃ args,
        BackendCall.createCall args ∈ (register_custom_endpoint env (.obj cfg)).2) →
      (check_endpoint_exists env (nameOrUnknown cfg)).1 = .ok false) := by
  refine ⟨?_, ?_, ?_⟩
  · intro h1
    have hnc := check_trace_no_create env (.str n)
    rcases hpair : check_endpoint_exists env (.str n) with ⟨r, t⟩
    rw [hpair] at hnc h1
    simp only at h1
    subst h1
    refine ⟨?_, ?_, ?_⟩
    · simp [register_endpoint_by_name, hpair]
    · simp only [register_endpoint_by_name, hpair]
      exact hnc
    · intro cfg hnm
      constructor
      · simp [register_custom_endpoint, hnm, hpair]
      · simp only [register_custom_endpoint, hnm, hpair]
        exact hnc
  · rintro ⟨args, hmem⟩
    have hnc := check_trace_no_create env (.str n)
    rcases hpair : check_endpoint_exists env (.str n) with ⟨r, t⟩
    rw [hpair] at hnc
    simp only [register_endpoint_by_name, hpair] at hmem
    match r, hmem with
    | .error e, hmem =>
      exact absurd (hnc _ hmem) (by simp [isCreateCall])
    | .ok true, hmem =>
      exact absurd (hnc _ hmem) (by simp [isCreateCall])
    | .ok false, hmem => rfl
  · rintro cfg ⟨args, hmem⟩
    have hnc := check_trace_no_create env (nameOrUnknown cfg)
    rcases hpair : check_endpoint_exists env (nameOrUnknown cfg) with ⟨r, t⟩
    rw [hpair] at hnc
    simp only [register_custom_endpoint, hpair] at hmem
    match r, hmem with
    | .error e, hmem =>
      exact absurd (hnc _ hmem) (by simp [isCreateCall])
    | .ok true, hmem =>
      exact absurd (hnc _ hmem) (by simp [isCreateCall])
    | .ok false, hmem => rfl

/-- An environment whose registry already holds an endpoint named `a`. -/
def env1 : Env :=
  { env0 with getAll := .ok [[("name", .str "a")]] }

/-- Witness for C1: registering the already-present name `a` returns the
"already registered" message after only the listing call. -/
theorem c1_creation_only_after_check_false_witness :
    register_endpoint_by_name env1 "a" =
      (.ok (alreadyRegisteredMsg (.str "a")), [BackendCall.getAllCall]) := by
  have h := (c1_creation_only_after_check_false env1 "a").1
    (by simp [check_endpoint_exists, env1, env0, matchesName, pyGetEq, cfgGet, jvBeq])
  rw [h.1]
  simp [check_endpoint_exists, env1, env0, matchesName, pyGetEq, cfgGet, jvBeq]

/-- Counterexample to claim C8 as stated: when the backend import fails,
the wrapped error has a fixed message that does not name the endpoint — it
contains no `x` character at all for a config named `x`, and is the same
error for configs with different names. -/
theorem c8_counterexample_import_error_without_name :
    register_endpoint { env0 with importOk := false, importErr := "boom" }
        (.obj [("name", .str "x")]) =
      (.error (.importFailRegister "boom"), []) ∧
    ¬ ('x' ∈ (renderErr (.importFailRegister "boom")).data) ∧
    register_endpoint { env0 with importOk := false, importErr := "boom" }
        (.obj [("name", .str "x")]) =
      register_endpoint { env0 with importOk := false, importErr := "boom" }
        (.obj [("name", .str "y")]) :=
  ⟨rfl, by decide, rfl⟩

/-- Claim C8 (amended): the registrar wraps both failure modes into a
single descriptive error rather than propagating the raw exception; the
creation-failure error names the endpoint, while the import-failure error
has a fixed, name-independent message. -/
theorem c8_amended_registrar_wraps_failures (env : Env) :
    (env.importOk = false →
      ∀ v, register_endpoint env v =
        (.error (.importFailRegister env.importErr), [])) ∧
    (∀ cfg c2 s m, env.importOk = true →
      validate_endpoint_config cfg = .ok c2 →
      env.create (mkCreateArgs c2) = .error m →
      cfgGet cfg "name" = some (.str s) →
      register_endpoint env (.obj cfg) =
        (.error (.registerFail (.str s) (.createFailed m)),
         [.createCall (mkCreateArgs c2)]) ∧
      renderErr (.registerFail (.str s) (.createFailed m)) =
        "Failed to register endpoint \x27" ++ s ++ "\x27: " ++ m) := by
  constructor
  · intro h v
    simp [register_endpoint, h]
  · intro cfg c2 s m himp hval hcreate hname
    have hnm : nameOrUnknown cfg = .str s := by
      simp [nameOrUnknown, hname]
    refine ⟨?_, rfl⟩
    simp [register_endpoint, himp, hval, hcreate, hnm]

/-- An environment whose creation API always raises. -/
def envC8 : Env := { env0 with create := fun _ => .error "boom" }

/-- Witness for C8 (amended): a concrete creation failure wrapped into the
error naming endpoint `x`. -/
theorem c8_amended_registrar_wraps_failures_witness :
    register_endpoint envC8
        (.obj [("name", JValue.str "x"), ("connector_type", JValue.str "t"),
               ("model", JValue.str "m")]) =
      (.error (.registerFail (.str "x") (.createFailed "boom")),
       [.createCall (mkCreateArgs (applyDefaults
          [("name", JValue.str "x"), ("connector_type", JValue.str "t"),
           ("model", JValue.str "m")]))]) :=
  ((c8_amended_registrar_wraps_failures envC8).2
    [("name", JValue.str "x"), ("connector_type", JValue.str "t"),
     ("model", JValue.str "m")]
    (applyDefaults
      [("name", JValue.str "x"), ("connector_type", JValue.str "t"),
       ("model", JValue.str "m")])
    "x" "boom" rfl rfl rfl rfl).1

/-- Claim C6: the loader tries `<name>.json` first, then
`<name>-connector.json`, returns the parsed value of the first existing
file, `none` when neither exists, and raises a load error when the first
matching file is unreadable or malformed. -/
theorem c6_loader_search_order (d : DataDir) (n : String) :
    (∀ v, dirLookup d (n ++ ".json") = some (.ok v) →
      get_endpoint_config_from_file d n = .ok (some v)) ∧
    (∀ v, dirLookup d (n ++ ".json") = none →
      dirLookup d (n ++ "-connector.json") = some (.ok v) →
      get_endpoint_config_from_file d n = .ok (some v)) ∧
    (dirLookup d (n ++ ".json") = none →
      dirLookup d (n ++ "-connector.json") = none →
      get_endpoint_config_from_file d n = .ok none) ∧
    (∀ m, dirLookup d (n ++ ".json") = some (.error m) →
      get_endpoint_config_from_file d n =
        .error (.loadConfigFail (n ++ ".json") m)) ∧
    (∀ m, dirLookup d (n ++ ".json") = none →
      dirLookup d (n ++ "-connector.json") = some (.error m) →
      get_endpoint_config_from_file d n =
        .error (.loadConfigFail (n ++ "-connector.json") m)) := by
  refine ⟨?_, ?_, ?_, ?_, ?_⟩
  · intro v h1
    simp [get_endpoint_config_from_file, possible_files, tryLoadFiles, h1]
  · intro v h1 h2
    simp [get_endpoint_config_from_file, possible_files, tryLoadFiles, h1, h2]
  · intro h1 h2
    simp [get_endpoint_config_from_file, possible_files, tryLoadFiles, h1, h2]
  · intro m h1
    simp [get_endpoint_config_from_file, possible_files, tryLoadFiles, h1]
  · intro m h1 h2
    simp [get_endpoint_config_from_file, possible_files, tryLoadFiles, h1, h2]

/-- A directory holding both filename shapes for endpoint `e`. -/
def dirW : DataDir :=
  ⟨true, [("e-connector.json", .ok (.str "second")), ("e.json", .ok (.str "first"))]⟩

/-- Witness for C6: `e.json` wins over `e-connector.json`. -/
theorem c6_loader_search_order_witness :
    get_endpoint_config_from_file dirW "e" = .ok (some (.str "first")) :=
  (c6_loader_search_order dirW "e").1 (.str "first") (by rfl)

/-- The last dot of a name ending in `.json` sits right before the
suffix. -/
theorem rfindDot_append_jsonSuffix (t : List Char) :
    rfindDot (t ++ jsonSuffix) = some t.length := by
  induction t with
  | nil => rfl
  | cons c cs ih => simp [rfindDot, ih]

/-- For a nonempty base, `Path.stem` strips exactly the `.json` suffix. -/
theorem pathStem_append_jsonSuffix (t : List Char) (ht : t ≠ []) :
    pathStem ⟨t ++ jsonSuffix⟩ = ⟨t⟩ := by
  have hlen : 0 < t.length := List.length_pos.mpr ht
  simp only [pathStem, show (String.mk (t ++ jsonSuffix)).data = t ++ jsonSuffix from rfl,
    rfindDot_append_jsonSuffix]
  rw [if_pos]
  · rw [List.take_left]
  · simp only [List.length_append, jsonSuffix, List.length_cons, List.length_nil,
      Bool.and_eq_true, decide_eq_true_eq]
    omega

/-- A glob match means the name decomposes as base ++ `.json`. -/
theorem globMatchesJson_exists {s : String} (h : globMatchesJson s = true) :
    ∃ t, s.data = t ++ jsonSuffix := by
  unfold globMatchesJson at h
  rw [List.isSuffixOf_iff_suffix] at h
  obtain ⟨t, ht⟩ := h
  exact ⟨t, ht.symm⟩

/-- `Path.stem` is injective on glob-matched names other than `.json`
itself. -/
theorem pathStem_inj {a b : String} (ha : globMatchesJson a = true)
    (hb : globMatchesJson b = true) (hna : a ≠ ".json") (hnb : b ≠ ".json")
    (h : pathStem a = pathStem b) : a = b := by
  obtain ⟨ta, hta⟩ := globMatchesJson_exists ha
  obtain ⟨tb, htb⟩ := globMatchesJson_exists hb
  have hta2 : ta ≠ [] := by
    rintro rfl
    apply hna
    cases a with
    | mk l =>
      have hl : l = jsonSuffix := by simpa using hta
      subst hl
      rfl
  have htb2 : tb ≠ [] := by
    rintro rfl
    apply hnb
    cases b with
    | mk l =>
      have hl : l = jsonSuffix := by simpa using htb
      subst hl
      rfl
  have ha2 : a = ⟨ta ++ jsonSuffix⟩ := by
    cases a with
    | mk l => exact congrArg String.mk hta
  have hb2 : b = ⟨tb ++ jsonSuffix⟩ := by
    cases b with
    | mk l => exact congrArg String.mk htb
  rw [ha2, hb2, pathStem_append_jsonSuffix ta hta2,
    pathStem_append_jsonSuffix tb htb2] at h
  have heq : ta = tb := congrArg String.data h
  rw [ha2, hb2, heq]

/-- Counterexample to claim C7 as stated: a directory holding the two
distinct files `.json` and `.json.json` (both matched by `*.json`, both
with `Path.stem` equal to `.json`) makes `list-available` return a list
with a duplicate entry. -/
theorem c7_counterexample_duplicate_stems :
    ¬ (list_available_endpoint_configs
        ⟨true, [(".json", .ok .null), (".json.json", .ok .null)]⟩).Nodup ∧
    ([".json", ".json.json"] : List String).Nodup := by
  constructor
  · have hev : list_available_endpoint_configs
        ⟨true, [(".json", .ok .null), (".json.json", .ok .null)]⟩ =
        [".json", ".json"] := by
      have h1 : (((([(".json", Except.ok JValue.null),
          (".json.json", Except.ok JValue.null)] :
            List (String × Except String JValue)).map Prod.fst).filter
            globMatchesJson).map pathStem) = [".json", ".json"] := by decide
      simp only [list_available_endpoint_configs, if_true, h1]
      apply List.mergeSort_of_sorted
      refine List.pairwise_cons.mpr ⟨?_, List.pairwise_singleton _ _⟩
      intro b hb
      rw [List.mem_singleton] at hb
      subst hb
      simp
    rw [hev]
    decide
  · decide

/-- Claim C7 (amended): `list-available` is empty when the directory is
absent; otherwise it returns, sorted ascending, the `Path.stem`s of the
`*.json` files; the result is duplicate-free whenever the filenames are
distinct and no file is named exactly `.json` (the stem of both `.json`
and `.json.json` is `.json`, the one source of duplicates). -/
theorem c7_amended_list_available_sorted (d : DataDir) :
    (d.present = false → list_available_endpoint_configs d = []) ∧
    (d.present = true →
      (list_available_endpoint_configs d).Perm
        (((d.files.map Prod.fst).filter globMatchesJson).map pathStem)) ∧
    (list_available_endpoint_configs d).Sorted (· ≤ ·) ∧
    ((d.files.map Prod.fst).Nodup →
      (∀ fn ∈ d.files.map Prod.fst, fn ≠ ".json") →
      (list_available_endpoint_configs d).Nodup) := by
  have htrans : ∀ (a b c : String),
      (fun a b : String => (a ≤ b : Bool)) a b →
      (fun a b : String => (a ≤ b : Bool)) b c →
      (fun a b : String => (a ≤ b : Bool)) a c := by
    intro a b c hab hbc
    simp only [decide_eq_true_eq] at hab hbc ⊢
    exact le_trans hab hbc
  have htotal : ∀ (a b : String),
      ((fun a b : String => (a ≤ b : Bool)) a b ||
       (fun a b : String => (a ≤ b : Bool)) b a) := by
    intro a b
    simpa using le_total a b
  refine ⟨?_, ?_, ?_, ?_⟩
  · intro h
    simp [list_available_endpoint_configs, h]
  · intro h
    simp only [list_available_endpoint_configs, h, if_true]
    exact List.mergeSort_perm _ _
  · by_cases h : d.present
    · simp only [list_available_endpoint_configs, h, if_true]
      apply List.Pairwise.imp ?_ (List.sorted_mergeSort htrans htotal _)
      intro a b hab
      simpa using hab
    · simp [list_available_endpoint_configs, h]
  · intro hnd hne
    by_cases h : d.present
    · simp only [list_available_endpoint_configs, h, if_true]
      rw [List.Perm.nodup_iff (List.mergeSort_perm _ _)]
      apply List.Nodup.map_on
      · intro x hx y hy hxy
        have hmx := List.mem_filter.mp hx
        have hmy := List.mem_filter.mp hy
        exact pathStem_inj hmx.2 hmy.2 (hne x hmx.1) (hne y hmy.1) hxy
      · exact hnd.filter _
    · simp [list_available_endpoint_configs, h]

/-- Witness for C7 (amended): a directory with distinct ordinary files
yields a sorted duplicate-free listing. -/
theorem c7_amended_list_available_sorted_witness :
    (list_available_endpoint_configs dirW).Nodup :=
  (c7_amended_list_available_sorted dirW).2.2.2 (by decide) (by decide)

example : mainRun env0 ["endpoint-manager.py", "list-available"] =
    ⟨0, ["Available endpoint configurations:"], []⟩ := by
  simp [mainRun, runCommand, list_available_endpoint_configs, env0]

example : list_available_endpoint_configs ⟨true, [("b.json", .ok .null), ("a.json", .ok .null)]⟩ =
    ["a", "b"] := by
  simp [list_available_endpoint_configs, globMatchesJson, List.mergeSort, pathStem,
    rfindDot, jsonSuffix, List.isSuffixOf, List.merge]
  decide

